import Mathlib

/-!
Shallow embedding of the orchestration core of the vscode-meson extension
(`src/extension.ts`) and proofs about it.

Modelling conventions:
* The TypeScript value `boolean | "ask"` used for the download-consent and
  configure-on-open settings becomes an inductive with a `bool` and an `ask`
  constructor.  JavaScript truthiness of such a value (`if (configureOnOpen)`)
  is modelled by `truthy`, under which the non-empty string "ask" is truthy.
* Interactions with the host (prompts, quick picks) are modelled by passing the
  eventual user response as an explicit argument (`Option _`, `none` meaning
  the prompt or pick was dismissed without a choice).
* External collaborators that live outside this file set (the node `path`
  module's `dirname`/`relative`, `relativeBuildDir`, the task backend, the
  test backend) are passed in as function arguments or abstract data, exactly
  at the narrow interface the source calls them through.
* Side effects (configuration writes, task runs, window reloads, language
  client lifecycle calls) are reified as explicit result fields or as events
  in a trace list, in the order the source issues them.
-/

/-- The setting value type `boolean | "ask"` of `mesonbuild.downloadLanguageServer`. -/
inductive DLS where
  | bool (b : Bool)
  | ask
deriving DecidableEq, Repr

/-- The configuration scope a setting write targets
(`vscode.ConfigurationTarget.Global` / `.Workspace`). -/
inductive ConfigTarget where
  | global
  | workspace
deriving DecidableEq, Repr

/-- User responses to the download-consent prompt of `shouldDownload`
(lines 268-272): the three options Yes / "Not this time" / Never. -/
inductive DLResponse where
  | yes
  | notThisTime
  | never
deriving DecidableEq, Repr

/-- Result of one `shouldDownload` call: the returned boolean, whether the
information message was shown, and the configuration write it performed
(value and target), if any. -/
structure ShouldDownloadResult where
  result : Bool
  prompted : Bool
  persisted : Option (DLS × ConfigTarget)
deriving DecidableEq, Repr

/-- `shouldDownload` (extension.ts lines 265-294).  A boolean setting is
returned immediately; `"ask"` shows the prompt and dispatches on the
response, falling through to `return false` when the prompt was dismissed
(`response` is `undefined`, here `none`). -/
def shouldDownload (dls : DLS) (resp : Option DLResponse) : ShouldDownloadResult :=
  match dls with
  | .bool b => ⟨b, false, none⟩
  | .ask =>
    match resp with
    | some .yes => ⟨true, true, some (DLS.bool true, ConfigTarget.global)⟩
    | some .never => ⟨false, true, some (DLS.bool false, ConfigTarget.global)⟩
    | some .notThisTime => ⟨false, true, some (DLS.ask, ConfigTarget.global)⟩
    | none => ⟨false, true, none⟩

/-- Outcome of the configuration-resolution block (extension.ts lines 47-58):
the authoritative meson file and the session's `configurationChosen` flag. -/
structure Resolution where
  mesonFile : String
  configurationChosen : Bool
deriving DecidableEq, Repr

/-- Lines 47-58: a persisted `mesonbuild.mesonFile` that is still among the
discovered files is kept, with `configurationChosen` read from the separately
persisted flag (defaulting to `false` through `?? false`); a stale persisted
path is dropped (`savedMesonFile = undefined`) and `mesonFiles[0]` is used. -/
def resolveConfiguration (mesonFiles : List String) (savedMesonFile : Option String)
    (savedChosen : Option Bool) : Resolution :=
  match savedMesonFile with
  | some saved =>
    if mesonFiles.contains saved then
      ⟨saved, savedChosen.getD false⟩
    else
      ⟨mesonFiles.headD "", false⟩
  | none => ⟨mesonFiles.headD "", false⟩

/-- The persisted workspace-state keys this core writes
(`mesonbuild.mesonFile` / `buildDir` / `sourceDir` / `configurationChosen`);
`none` models an unset (`undefined`) key. -/
structure WorkspaceState where
  mesonFile : Option String
  buildDir : Option String
  sourceDir : Option String
  configurationChosen : Option Bool
deriving DecidableEq, Repr

/-- One resolution pass (lines 47-65): resolve against the previously
persisted keys, then persist the resolved file, the derived build and source
directories, and reset `configurationChosen` to `undefined`.  `dirname` and
`relativeBuildDir` are the external derivations the source calls. -/
def resolutionPass (dirname relativeBuildDir : String → String)
    (mesonFiles : List String) (st : WorkspaceState) : WorkspaceState :=
  let res := resolveConfiguration mesonFiles st.mesonFile st.configurationChosen
  { mesonFile := some res.mesonFile
    buildDir := some (relativeBuildDir res.mesonFile)
    sourceDir := some (dirname res.mesonFile)
    configurationChosen := none }

/-- The setting value type `boolean | "ask"` of `mesonbuild.configureOnOpen`
(also the type of the local `configureOnOpen` variable, line 205). -/
inductive CFO where
  | bool (b : Bool)
  | ask
deriving DecidableEq, Repr

/-- JavaScript truthiness of a `boolean | "ask"` value, as tested by
`if (configureOnOpen)` on line 238: the non-empty string `"ask"` is truthy. -/
def truthy : CFO → Bool
  | .bool b => b
  | .ask => true

/-- User responses to the configure-on-open information message
(lines 207-212): Yes / Always / No / Never. -/
inductive ConfigureResponse where
  | yes
  | always
  | no
  | never
deriving DecidableEq, Repr

/-- One entry of the configuration quick pick (line 241): the index of the
candidate in the discovered list and its label, the path relative to the
workspace root. -/
structure PickItem where
  index : Nat
  label : String
deriving DecidableEq, Repr

/-- The comparator the configuration quick pick sorts by (line 242):
ascending label order (`a.label.localeCompare(b.label)`). -/
def itemLE (a b : PickItem) : Prop := a.label ≤ b.label

instance : DecidableRel itemLE := fun a b => inferInstanceAs (Decidable (a.label ≤ b.label))

instance : IsTotal PickItem itemLE := ⟨fun a b => le_total a.label b.label⟩

instance : IsTrans PickItem itemLE := ⟨fun _ _ _ h h2 => le_trans h h2⟩

/-- Lines 241-242: build one item per discovered meson file, labelled with
its path relative to the workspace root (`rel` stands for the external
`relative(root, ·)`), then sort ascending by label.  Insertion sort models
the stable host sort. -/
def configPickerItems (rel : String → String) (mesonFiles : List String) : List PickItem :=
  (mesonFiles.enum.map (fun p => ⟨p.1, rel p.2⟩)).insertionSort itemLE

/-- The local `configureOnOpen` value after the prompt dispatch
(lines 205-236): `configurationChosen || setting`, then the `"ask"` prompt
leaves it `"ask"` on No / Never / dismissal and sets it `true` on
Yes / Always. -/
def effectiveConfigureOnOpen (chosen : Bool) (setting : CFO)
    (resp : Option ConfigureResponse) : CFO :=
  let cfo0 : CFO := if chosen then .bool true else setting
  if cfo0 = CFO.ask then
    match resp with
    | some .yes => .bool true
    | some .always => .bool true
    | some .no => .ask
    | some .never => .ask
    | none => .ask
  else cfo0

/-- The workspace-scoped write to the `configureOnOpen` setting the prompt
dispatch performs (lines 224 and 232): Never persists `false`, Always
persists `true`, anything else writes nothing. -/
def configureOnOpenPersist (chosen : Bool) (setting : CFO)
    (resp : Option ConfigureResponse) : Option (CFO × ConfigTarget) :=
  let cfo0 : CFO := if chosen then .bool true else setting
  if cfo0 = CFO.ask then
    match resp with
    | some .never => some (CFO.bool false, ConfigTarget.workspace)
    | some .always => some (CFO.bool true, ConfigTarget.workspace)
    | _ => none
  else none

/-- All externally visible effects of the configure-on-open block
(lines 204-261). -/
structure ConfigureOutcome where
  promptShown : Bool
  persistedConfigureOnOpen : Option (CFO × ConfigTarget)
  pickerShown : Bool
  pickerItems : List PickItem
  persistedMesonFile : Option String
  persistedChosen : Option Bool
  reloadTriggered : Bool
  reconfigureRun : Bool
  testsRebuilt : Bool
deriving DecidableEq, Repr

/-- The configure-on-open block (lines 204-261).  `configured` is
`checkMesonIsConfigured(buildDir)`; `chosen` is the session's
`configurationChosen`; `resp` is the response to the information message;
`selection` is the original index carried by the quick-pick item the user
accepted (`none` when the pick was dismissed); `mesonFile` is the resolved
authoritative file.  When the project is already configured, only
`rebuildTests` runs.  Otherwise the prompt result gates on JS truthiness;
inside, the multi-candidate quick pick may persist a new choice and trigger
a window reload, and `runFirstTask("reconfigure")` runs unless the pick was
dismissed (`cancel`). -/
def configureFlow (configured chosen : Bool) (setting : CFO)
    (resp : Option ConfigureResponse) (rel : String → String)
    (mesonFiles : List String) (mesonFile : String) (selection : Option Nat) :
    ConfigureOutcome :=
  if configured then
    { promptShown := false, persistedConfigureOnOpen := none, pickerShown := false,
      pickerItems := [], persistedMesonFile := none, persistedChosen := none,
      reloadTriggered := false, reconfigureRun := false, testsRebuilt := true }
  else
    let cfo0 : CFO := if chosen then .bool true else setting
    let promptShown : Bool := cfo0 == CFO.ask
    let cfo1 := effectiveConfigureOnOpen chosen setting resp
    let persistedCfo := configureOnOpenPersist chosen setting resp
    if truthy cfo1 then
      if !chosen && decide (1 < mesonFiles.length) then
        let items := configPickerItems rel mesonFiles
        match selection with
        | none =>
          { promptShown := promptShown, persistedConfigureOnOpen := persistedCfo,
            pickerShown := true, pickerItems := items, persistedMesonFile := none,
            persistedChosen := none, reloadTriggered := false,
            reconfigureRun := false, testsRebuilt := false }
        | some i =>
          if (mesonFiles[i]?).getD "" ≠ mesonFile then
            { promptShown := promptShown, persistedConfigureOnOpen := persistedCfo,
              pickerShown := true, pickerItems := items,
              persistedMesonFile := some ((mesonFiles[i]?).getD ""),
              persistedChosen := some true, reloadTriggered := true,
              reconfigureRun := true, testsRebuilt := false }
          else
            { promptShown := promptShown, persistedConfigureOnOpen := persistedCfo,
              pickerShown := true, pickerItems := items, persistedMesonFile := none,
              persistedChosen := none, reloadTriggered := false,
              reconfigureRun := true, testsRebuilt := false }
      else
        { promptShown := promptShown, persistedConfigureOnOpen := persistedCfo,
          pickerShown := false, pickerItems := [], persistedMesonFile := none,
          persistedChosen := none, reloadTriggered := false,
          reconfigureRun := true, testsRebuilt := false }
    else
      { promptShown := promptShown, persistedConfigureOnOpen := persistedCfo,
        pickerShown := false, pickerItems := [], persistedMesonFile := none,
        persistedChosen := none, reloadTriggered := false,
        reconfigureRun := false, testsRebuilt := false }

/-- Externally visible events of the language-server lifecycle paths:
prompting, configuration writes, client construction (`createClient` carries
the server identifier and the download-consent boolean passed to it), the
configuration-change subscription, the client lifecycle calls, the muon log
line, and linter/formatter activation. -/
inductive Event where
  | promptDownload
  | persistDownloadSetting (v : DLS) (t : ConfigTarget)
  | createClient (server : String) (downloadAllowed : Bool)
  | subscribeReloadOnConfigChange (server : String)
  | updateClient
  | pushClientSubscription
  | startClient
  | reloadConfig
  | restartClient
  | logMuonDisabled
  | activateLinters
  | activateFormatters
deriving DecidableEq, Repr

/-- Host-visible events of one `shouldDownload` call, in source order:
the prompt (when shown) followed by the configuration write (when made). -/
def consentTrace (dls : DLS) (resp : Option DLResponse) : List Event :=
  let sd := shouldDownload dls resp
  (if sd.prompted then [Event.promptDownload] else []) ++
    (match sd.persisted with
     | some (v, t) => [Event.persistDownloadSetting v t]
     | none => [])

/-- The fresh-start language-server sequence at activation (lines 296-315):
resolve consent, construct the client, and only when a client was produced
AND the server identifier is "Swift-MesonLSP": subscribe the reload-on-config
handler, `update`, push the client subscription, `start`, `reloadConfig`,
and log that the muon linter/formatter is not enabled; in every other case
activate linters and formatters. -/
def languageServerStartup (server : String) (dls : DLS) (resp : Option DLResponse)
    (clientOk : Bool) : List Event :=
  consentTrace dls resp ++
    [Event.createClient server (shouldDownload dls resp).result] ++
    (if clientOk && server == "Swift-MesonLSP" then
      [Event.subscribeReloadOnConfigChange server, Event.updateClient,
        Event.pushClientSubscription, Event.startClient, Event.reloadConfig,
        Event.logMuonDisabled]
    else
      [Event.activateLinters, Event.activateFormatters])

/-- The `mesonbuild.restartLanguageServer` command handler (lines 317-332):
with a live client, `restart` then `reloadConfig`; with no client, re-run
consent and construction and, when a client was produced, push it, `start`
it and `reloadConfig` (no `update`, no subscription, no server-identifier
check, no linter/formatter activation). -/
def restartCommand (server : String) (dls : DLS) (resp : Option DLResponse)
    (clientExists clientOk : Bool) : List Event :=
  if clientExists then
    [Event.restartClient, Event.reloadConfig]
  else
    consentTrace dls resp ++
      [Event.createClient server (shouldDownload dls resp).result] ++
      (if clientOk then
        [Event.pushClientSubscription, Event.startClient, Event.reloadConfig]
      else [])

/-- The session values the restart command handler closes over: the server
identifier and the `downloadLanguageServer` value read once on lines 263-264
of `activate`. -/
structure LspSession where
  server : String
  capturedDownloadSetting : DLS
deriving DecidableEq, Repr

/-- Lines 263-264: the consent setting is read once at activation and
captured by the command closures registered afterwards. -/
def activateLsp (persisted : DLS) (server : String) : LspSession :=
  ⟨server, persisted⟩

/-- The restart command as registered at activation.  `currentPersisted` is
the live value of the `downloadLanguageServer` setting at command time; the
handler never re-reads it, using the captured activation-time value
instead. -/
def restartCommandInSession (s : LspSession) (_currentPersisted : DLS)
    (resp : Option DLResponse) (clientExists clientOk : Bool) : List Event :=
  restartCommand s.server s.capturedDownloadSetting resp clientExists clientOk

/-- The backend state the artifact-change effects recompute from: the task
graph behind `getMesonTasks`/`clearCache`, the test set behind
`rebuildTests`, the environment file content behind `genEnvFile`, and the
tree content behind `explorer.refresh`. -/
structure Backend where
  tests : List String
  envFile : String
  treeView : String
deriving DecidableEq, Repr

/-- The mutable state touched by the build-artifact watcher: the
`mesonTasks` provider cache, the utils-module cache cleared by
`clearCache()`, the test items, the generated environment file, the
rendered tree view, and (untouched by this handler) the installed
compile-commands state. -/
structure ExtensionState where
  mesonTasks : Option (List String)
  utilsCache : Option (List String)
  testItems : List String
  envFileContent : String
  explorerView : String
  compileCommandsInstalled : Bool
deriving DecidableEq, Repr

/-- The `changeHandler` for `build.ninja` create/change events
(lines 115-121): null out the cached task list, clear the utils cache, and
re-derive tests, environment file and tree view from the backend state. -/
def changeHandler (b : Backend) (s : ExtensionState) : ExtensionState :=
  { s with
    mesonTasks := none
    utilsCache := none
    testItems := b.tests
    envFileContent := b.envFile
    explorerView := b.treeView }

/-- Claim C1: for every persisted consent value, `shouldDownload` returns the
boolean immediately without prompting when the value is `true` or `false`;
when the value is `"ask"` it prompts, and "Yes" persists `true` globally and
returns `true`, "Never" persists `false` and returns `false`, "Not this time"
persists `"ask"` and returns `false`, and dismissal returns `false` without
persisting anything. -/
theorem c1_consent_state_machine (b : Bool) (resp : Option DLResponse) :
    shouldDownload (DLS.bool b) resp = ⟨b, false, none⟩ ∧
    shouldDownload DLS.ask (some DLResponse.yes) =
      ⟨true, true, some (DLS.bool true, ConfigTarget.global)⟩ ∧
    shouldDownload DLS.ask (some DLResponse.never) =
      ⟨false, true, some (DLS.bool false, ConfigTarget.global)⟩ ∧
    shouldDownload DLS.ask (some DLResponse.notThisTime) =
      ⟨false, true, some (DLS.ask, ConfigTarget.global)⟩ ∧
    shouldDownload DLS.ask none = ⟨false, true, none⟩ :=
  ⟨rfl, rfl, rfl, rfl, rfl⟩

/-- Claim C5: with a non-empty discovered file set, a persisted path that is
a member of the set becomes the authoritative file with `configurationChosen`
taken from the separately persisted flag (defaulting to `false`); a persisted
path absent from the set is discarded and the first discovered file becomes
authoritative. -/
theorem c5_persisted_choice_resolution (files : List String) (saved : String)
    (sc : Option Bool) (_hne : files ≠ []) :
    (saved ∈ files →
      resolveConfiguration files (some saved) sc = ⟨saved, sc.getD false⟩) ∧
    (saved ∉ files →
      resolveConfiguration files (some saved) sc = ⟨files.headD "", false⟩) := by
  constructor
  · intro hmem
    simp [resolveConfiguration, List.elem_iff, hmem]
  · intro hmem
    simp [resolveConfiguration, List.elem_iff, hmem]

/-- Witness for C5 at a concrete input. -/
theorem c5_persisted_choice_resolution_witness :
    resolveConfiguration ["/ws/meson.build", "/ws/sub/meson.build"]
        (some "/ws/sub/meson.build") (some true) = ⟨"/ws/sub/meson.build", true⟩ :=
  (c5_persisted_choice_resolution ["/ws/meson.build", "/ws/sub/meson.build"]
      "/ws/sub/meson.build" (some true) (by decide)).1 (by decide)

/-- Claim C2, evaluated at the failing input: one discovered meson file, the
project not yet configured, `configureOnOpen` set to `"ask"`, and the user
dismissing the prompt without a choice (`resp = none`).  The prompt is shown
and nothing is persisted, yet `runFirstTask("reconfigure")` still runs,
because after the dismissed prompt the local `configureOnOpen` is still the
string `"ask"`, which `if (configureOnOpen)` treats as truthy.  The prompt's
own No / Never options take the same path, contradicting their labels and
the cancellation design of the spec. -/
theorem c2_configure_prompt_dismissal_still_runs_reconfigure :
    (configureFlow false false CFO.ask none (fun s => s)
        ["/ws/meson.build"] "/ws/meson.build" none).promptShown = true ∧
    (configureFlow false false CFO.ask none (fun s => s)
        ["/ws/meson.build"] "/ws/meson.build" none).persistedConfigureOnOpen = none ∧
    (configureFlow false false CFO.ask none (fun s => s)
        ["/ws/meson.build"] "/ws/meson.build" none).reconfigureRun = true :=
  ⟨rfl, rfl, rfl⟩

/-- Claim C6: a singleton discovered set is picked with no picker ever shown;
with two or more candidates and no valid persisted choice, the first
discovered file is the provisional authority and the configure flow's picker
offers every candidate sorted ascending by workspace-relative path. -/
theorem c6_candidate_selection (rel : String → String) (files : List String)
    (saved : Option String) (sc : Option Bool) :
    (∀ f, files = [f] →
      (resolveConfiguration files saved sc).mesonFile = f ∧
      (∀ configured chosen setting resp mf sel,
        (configureFlow configured chosen setting resp rel files mf sel).pickerShown =
          false)) ∧
    (1 < files.length → (∀ s, saved = some s → s ∉ files) →
      (resolveConfiguration files saved sc).mesonFile = files.headD "" ∧
      (∀ mf sel,
        (configureFlow false false (CFO.bool true) none rel files mf sel).pickerShown =
          true ∧
        (configureFlow false false (CFO.bool true) none rel files mf sel).pickerItems =
          configPickerItems rel files) ∧
      List.Sorted itemLE (configPickerItems rel files) ∧
      (configPickerItems rel files).Perm
        (files.enum.map (fun p => ⟨p.1, rel p.2⟩))) := by
  constructor
  · rintro f rfl
    constructor
    · rcases saved with _ | s
      · rfl
      · by_cases h : s = f
        · subst h
          simp [resolveConfiguration, List.elem_iff]
        · simp [resolveConfiguration, List.elem_iff, h]
    · intro configured chosen setting resp mf sel
      cases configured
      case true => rfl
      case false =>
        cases chosen
        case true =>
          cases htr : truthy (effectiveConfigureOnOpen true setting resp)
          case false => simp [configureFlow, htr]
          case true => simp [configureFlow, htr]
        case false =>
          cases htr : truthy (effectiveConfigureOnOpen false setting resp)
          case false => simp [configureFlow, htr]
          case true => simp [configureFlow, htr]
  · intro hlen hsaved
    refine ⟨?_, ?_, ?_, ?_⟩
    · rcases saved with _ | s
      · rfl
      · have hs : s ∉ files := hsaved s rfl
        simp [resolveConfiguration, List.elem_iff, hs]
    · intro mf sel
      rcases sel with _ | i
      · constructor <;>
          simp [configureFlow, effectiveConfigureOnOpen, truthy, hlen]
      · by_cases hgd : (files[i]?).getD "" = mf
        · constructor <;>
            simp [configureFlow, effectiveConfigureOnOpen, truthy, hlen, hgd]
        · constructor <;>
            simp [configureFlow, effectiveConfigureOnOpen, truthy, hlen, hgd]
    · unfold configPickerItems
      exact List.sorted_insertionSort itemLE _
    · unfold configPickerItems
      exact List.perm_insertionSort itemLE _

/-- Witness for C6 at a concrete input: two candidates, no persisted choice;
the first discovered file is authoritative and the picker is shown. -/
theorem c6_candidate_selection_witness :
    (resolveConfiguration ["/ws/b/meson.build", "/ws/a/meson.build"] none none).mesonFile =
      "/ws/b/meson.build" ∧
    (configureFlow false false (CFO.bool true) none (fun s => s)
        ["/ws/b/meson.build", "/ws/a/meson.build"] "/ws/b/meson.build" none).pickerShown =
      true :=
  ⟨((c6_candidate_selection (fun s => s) ["/ws/b/meson.build", "/ws/a/meson.build"]
        none none).2 (by decide) (by simp)).1,
   (((c6_candidate_selection (fun s => s) ["/ws/b/meson.build", "/ws/a/meson.build"]
        none none).2 (by decide) (by simp)).2.1 "/ws/b/meson.build" none).1⟩

/-- Claim C7: every resolution pass persists the resolved `mesonFile`, the
derived `buildDir` and `sourceDir`, and resets the persisted
`configurationChosen` key to unset; the configure flow writes
`configurationChosen := true` only on an explicit pick of a file different
from the current authoritative one. -/
theorem c7_resolution_persistence (dn rbd : String → String) (files : List String)
    (st : WorkspaceState) :
    (resolutionPass dn rbd files st).mesonFile =
      some (resolveConfiguration files st.mesonFile st.configurationChosen).mesonFile ∧
    (resolutionPass dn rbd files st).buildDir =
      some (rbd (resolveConfiguration files st.mesonFile st.configurationChosen).mesonFile) ∧
    (resolutionPass dn rbd files st).sourceDir =
      some (dn (resolveConfiguration files st.mesonFile st.configurationChosen).mesonFile) ∧
    (resolutionPass dn rbd files st).configurationChosen = none ∧
    (∀ configured chosen setting resp rel mf sel,
      (configureFlow configured chosen setting resp rel files mf sel).persistedChosen =
        some true →
      ∃ i, sel = some i ∧ (files[i]?).getD "" ≠ mf) := by
  refine ⟨rfl, rfl, rfl, rfl, ?_⟩
  intro configured chosen setting resp rel mf sel h
  cases configured
  case true => simp [configureFlow] at h
  case false =>
    cases htr : truthy (effectiveConfigureOnOpen chosen setting resp)
    case false => simp [configureFlow, htr] at h
    case true =>
      cases chosen
      case true => simp [configureFlow, htr] at h
      case false =>
        by_cases hlen : 1 < files.length
        · rcases sel with _ | i
          · simp [configureFlow, htr, hlen] at h
          · by_cases hgd : (files[i]?).getD "" ≠ mf
            · exact ⟨i, rfl, hgd⟩
            · simp [configureFlow, htr, hlen, hgd] at h
        · simp [configureFlow, htr, hlen] at h

/-- Witness for C7 at a concrete input: the explicit pick of the second
candidate is the only way `configurationChosen` gets persisted as `true`. -/
theorem c7_resolution_persistence_witness :
    ∃ i, (some 1 : Option Nat) = some i ∧
      ((["/ws/a/meson.build", "/ws/b/meson.build"] : List String)[i]?).getD "" ≠
        "/ws/a/meson.build" :=
  (c7_resolution_persistence (fun s => s) (fun s => s)
      ["/ws/a/meson.build", "/ws/b/meson.build"] ⟨none, none, none, none⟩).2.2.2.2
    false false (CFO.bool true) none (fun s => s) "/ws/a/meson.build" (some 1) (by decide)

/-- Claim C10: in the multi-candidate configure-on-open flow, dismissing the
configuration quick pick suppresses the reconfigure task and persists
nothing; selecting the already-authoritative file runs reconfigure without
persisting a new choice and without triggering a window reload. -/
theorem c10_picker_dismiss_and_same_file (rel : String → String) (files : List String)
    (mf : String) (setting : CFO) (resp : Option ConfigureResponse) (i : Nat)
    (hlen : 1 < files.length)
    (htr : truthy (effectiveConfigureOnOpen false setting resp) = true)
    (hsame : (files[i]?).getD "" = mf) :
    ((configureFlow false false setting resp rel files mf none).reconfigureRun = false ∧
     (configureFlow false false setting resp rel files mf none).persistedMesonFile = none ∧
     (configureFlow false false setting resp rel files mf none).persistedChosen = none ∧
     (configureFlow false false setting resp rel files mf none).reloadTriggered = false) ∧
    ((configureFlow false false setting resp rel files mf (some i)).reconfigureRun = true ∧
     (configureFlow false false setting resp rel files mf (some i)).persistedMesonFile =
       none ∧
     (configureFlow false false setting resp rel files mf (some i)).persistedChosen = none ∧
     (configureFlow false false setting resp rel files mf (some i)).reloadTriggered =
       false) := by
  unfold configureFlow
  simp [htr, hlen, hsame]

/-- Witness for C10 at a concrete input: two candidates, user picks the
already-authoritative first file. -/
theorem c10_picker_dismiss_and_same_file_witness :
    (configureFlow false false (CFO.bool true) none (fun s => s)
        ["/ws/meson.build", "/ws/sub/meson.build"] "/ws/meson.build"
        (some 0)).reconfigureRun = true :=
  ((c10_picker_dismiss_and_same_file (fun s => s)
      ["/ws/meson.build", "/ws/sub/meson.build"] "/ws/meson.build" (CFO.bool true)
      none 0 (by decide) (by decide) (by decide)).2).1

/-- Helper: the consent sub-trace contains only the prompt and the setting
write, never linter or formatter activation. -/
theorem activate_notMem_consentTrace (dls : DLS) (resp : Option DLResponse) :
    Event.activateLinters ∉ consentTrace dls resp ∧
    Event.activateFormatters ∉ consentTrace dls resp := by
  rcases dls with b | _ <;> rcases resp with _ | r <;>
    first
      | decide
      | (cases b <;> decide)
      | (cases r <;> decide)
      | (cases b <;> cases r <;> decide)

/-- Claim C3 as stated fails: with "Swift-MesonLSP" configured but client
construction yielding no client (for example, consent denied), the
activation path still activates both linters and formatters. -/
theorem c3_counterexample_rich_server_null_client :
    Event.activateLinters ∈
      languageServerStartup "Swift-MesonLSP" (DLS.bool false) none false ∧
    Event.activateFormatters ∈
      languageServerStartup "Swift-MesonLSP" (DLS.bool false) none false := by
  decide

/-- Claim C3 amended: linter and formatter activation is skipped exactly
when the configured server identifier is "Swift-MesonLSP" AND client
construction returned a client; in every other session, both are
activated. -/
theorem c3_linter_formatter_gating (server : String) (dls : DLS)
    (resp : Option DLResponse) (clientOk : Bool) :
    (Event.activateLinters ∈ languageServerStartup server dls resp clientOk ↔
      ¬(server = "Swift-MesonLSP" ∧ clientOk = true)) ∧
    (Event.activateFormatters ∈ languageServerStartup server dls resp clientOk ↔
      ¬(server = "Swift-MesonLSP" ∧ clientOk = true)) := by
  have hl := activate_notMem_consentTrace dls resp
  by_cases hsw : server = "Swift-MesonLSP" <;> cases clientOk <;>
    constructor <;>
      simp [languageServerStartup, hsw, hl.1, hl.2]

/-- Claim C4 as stated fails: for server "Swift-MesonLSP" with consent
already `true` and a successfully constructed client, the restart command
with no live client performs a strictly different sequence from the fresh
start at activation (it omits the configuration-change subscription, the
`update` call and the log line). -/
theorem c4_counterexample_restart_differs_from_fresh_start :
    restartCommand "Swift-MesonLSP" (DLS.bool true) none false true ≠
      languageServerStartup "Swift-MesonLSP" (DLS.bool true) none true := by
  decide

/-- Claim C4 amended: with no live client, the restart command re-runs the
consent protocol and client construction exactly as the fresh start does
(the traces agree up to and including `createClient`), but then only pushes
the client, starts it and reloads its configuration, omitting the fresh
start's `update` call, configuration-change subscription, rich-variant
gating, log line and linter/formatter activation; with a live client it is
`restart` followed by `reloadConfig`, with no consent re-check and no
linter/formatter re-activation. -/
theorem c4_restart_vs_fresh_start (server : String) (dls : DLS)
    (resp : Option DLResponse) (clientOk : Bool) :
    (restartCommand server dls resp false clientOk).take
        ((consentTrace dls resp).length + 1) =
      (languageServerStartup server dls resp clientOk).take
        ((consentTrace dls resp).length + 1) ∧
    (restartCommand server dls resp false clientOk).drop
        ((consentTrace dls resp).length + 1) =
      (if clientOk then
        [Event.pushClientSubscription, Event.startClient, Event.reloadConfig]
      else []) ∧
    restartCommand server dls resp true clientOk =
      [Event.restartClient, Event.reloadConfig] := by
  have hlen1 : (consentTrace dls resp ++
      [Event.createClient server (shouldDownload dls resp).result]).length =
      (consentTrace dls resp).length + 1 := by simp
  refine ⟨?_, ?_, rfl⟩
  · rw [restartCommand, languageServerStartup, if_neg (by decide)]
    rw [List.take_left' hlen1, List.take_left' hlen1]
  · rw [restartCommand, if_neg (by decide)]
    rw [List.drop_left' hlen1]

/-- Claim C8: invoking the build-artifact change handler twice with the
same backend state leaves the same final state as invoking it once, and
each invocation nulls the cached task list. -/
theorem c8_changeHandler_idempotent (b : Backend) (s : ExtensionState) :
    changeHandler b (changeHandler b s) = changeHandler b s ∧
    (changeHandler b s).mesonTasks = none :=
  ⟨rfl, rfl⟩

/-- Claim C9: the restart command uses the consent value captured at
activation, not a fresh read: when the setting was `"ask"` at activation, a
later restart with no live client shows the prompt again, whatever the
setting's current persisted value is. -/
theorem c9_restart_prompts_from_captured_ask (server : String)
    (persistedNow : DLS) (resp : Option DLResponse) (clientOk : Bool) :
    restartCommandInSession (activateLsp DLS.ask server) persistedNow resp
        false clientOk =
      restartCommand server DLS.ask resp false clientOk ∧
    Event.promptDownload ∈
      restartCommandInSession (activateLsp DLS.ask server) persistedNow resp
        false clientOk := by
  refine ⟨rfl, ?_⟩
  rcases resp with _ | r
  · simp [restartCommandInSession, restartCommand, activateLsp, consentTrace,
      shouldDownload]
  · cases r <;>
      simp [restartCommandInSession, restartCommand, activateLsp, consentTrace,
        shouldDownload]
